import Mathlib

/-!
# Scribble paint application: canvas and window shell

A shallow embedding of `ScribbleArea` (the canvas widget) and of the part of
`MainWindow` that gates closing on unsaved changes, followed by theorems about
the modified flag, the buffer size, resizing, saving/loading and the pointer
state machine.

Conventions of the embedding.

* Widget and image sizes are the non-negative `int`s of Qt, embedded as `Nat`.
  A widget side is at most `QWIDGETSIZE_MAX = 16777215`, so `width() + 128`
  cannot overflow a 32-bit `int`.
* A `QImage` is its width, its height and its pixel grid, each pixel the ARGB
  value `QImage::pixel` reports.  An image that `resizeImage` allocates is
  `Format_RGB32`, whose pixels are all opaque; an image a file was decoded into
  keeps the decoder's format and may hold pixels with alpha below 255.
* Painting an image onto a `Format_RGB32` image uses the painter's default
  source-over composition: an opaque source pixel replaces the destination
  pixel, any other is blended with it and the result stored opaque.
* The host library calls whose result the program cannot compute itself
  (decoding a file, encoding a file, rasterising a pen stroke, the blending
  arithmetic of the painter) are the fields of `Host`.  Answers of the user to dialogs are the fields of `Dialogs`.
* `update()` only schedules a repaint and `paintEvent` only copies the buffer
  to the screen; neither touches the canvas state and neither is embedded.
-/

set_option autoImplicit false

namespace Scribble

/-! ## Qt value types -/

/-- An ARGB quadruplet `0xAARRGGBB`, as `QRgb`. -/
abbrev QRgb := Nat

/-- Opaque colour from its components, as Qt's `qRgb(r, g, b)`. -/
def qRgb (r g b : Nat) : QRgb :=
  (0xff <<< 24) ||| ((r &&& 0xff) <<< 16) ||| ((g &&& 0xff) <<< 8) ||| (b &&& 0xff)

/-- Red component of a `QRgb`. -/
def qRed (c : QRgb) : Nat := (c >>> 16) &&& 0xff

/-- Green component of a `QRgb`. -/
def qGreen (c : QRgb) : Nat := (c >>> 8) &&& 0xff

/-- Blue component of a `QRgb`. -/
def qBlue (c : QRgb) : Nat := c &&& 0xff

/-- Alpha component of a `QRgb`. -/
def qAlpha (c : QRgb) : Nat := (c >>> 24) &&& 0xff

/-- A colour value, as `QColor` restricted to what the canvas stores. -/
abbrev QColor := QRgb

/-- The predefined colour `Qt::blue`. -/
def Qt.blue : QColor := qRgb 0 0 255

/-- The value of `Qt::LeftButton` in `Qt::MouseButton`. -/
def Qt.LeftButton : Nat := 1

/-- A size in pixels, as `QSize`. -/
structure QSize where
  width : Nat
  height : Nat
  deriving DecidableEq, Repr

/-- Componentwise maximum, as `QSize::expandedTo`. -/
def QSize.expandedTo (a b : QSize) : QSize :=
  ⟨max a.width b.width, max a.height b.height⟩

/-- A position in widget coordinates, as `QPoint`. -/
structure QPoint where
  x : Int
  y : Int
  deriving DecidableEq, Repr

/-- The pen handed to the painter: colour and width (the line style, cap and
join are the constants `SolidLine`, `RoundCap`, `RoundJoin`). -/
structure QPen where
  color : QColor
  width : Int

/-- A pointer event: the button that caused it, the buttons held, the position. -/
structure QMouseEvent where
  button : Nat
  buttons : Nat
  pos : QPoint

/-! ## Images -/

/-- A raster image: dimensions and the colour at each coordinate.  Only the
values at coordinates inside the bounds are pixels of the image; theorems about
pixels quantify over those. -/
structure QImage where
  width : Nat
  height : Nat
  pixel : Nat → Nat → QRgb

namespace QImage

/-- The default-constructed image, which has no pixels. -/
def null : QImage := ⟨0, 0, fun _ _ => 0⟩

/-- An image without pixels, as `QImage::isNull`. -/
def isNull (img : QImage) : Bool := img.width == 0 || img.height == 0

/-- Dimensions as a `QSize`, as `QImage::size`. -/
def size (img : QImage) : QSize := ⟨img.width, img.height⟩

/-- The constructor `QImage(size, Format_RGB32)`: a null image when a side is
zero, otherwise an image of that size whose content is not yet meaningful. -/
def create (sz : QSize) : QImage :=
  if sz.width = 0 ∨ sz.height = 0 then null else ⟨sz.width, sz.height, fun _ _ => 0⟩

/-- Every pixel set to one colour, as `QImage::fill`; nothing on a null image. -/
def fill (img : QImage) (c : QRgb) : QImage :=
  if img.isNull then img else { img with pixel := fun _ _ => c }

end QImage

/-! ## Host library -/

/-- The host calls the canvas delegates to, over a store of files `Files`. -/
structure Host (Files : Type) where
  /-- The image `QImageReader(fileName).read()` returns; null when decoding fails. -/
  read : Files → String → QImage
  /-- The call `QImageWriter(fileName, format).write(image)`: whether it
  succeeded, and the files afterwards. -/
  write : Files → QImage → String → String → Bool × Files
  /-- The pixel grid after `QPainter::drawLine(p1, p2)` with the given pen. -/
  drawLine : QImage → QPen → QPoint → QPoint → (Nat → Nat → QRgb)
  /-- The colour the painter's source-over arithmetic gives for a source pixel
  that is not opaque over a destination pixel (its red, green and blue are used). -/
  blend : QRgb → QRgb → QRgb

variable {Files : Type}

/-- One pixel painted source-over onto a `Format_RGB32` image: an opaque source
pixel is stored as it is; any other is blended with the destination pixel and
stored with alpha 255, the only alpha a `Format_RGB32` pixel has. -/
def QImage.over (host : Host Files) (src dst : QRgb) : QRgb :=
  if qAlpha src = 255 then src else (0xff <<< 24) ||| (host.blend src dst &&& 0xffffff)

/-- The effect of `QPainter(&dst).drawImage(QPoint(0, 0), src)` on a
`Format_RGB32` destination: the source is painted source-over with its
top-left corner at the origin of the destination; nothing on a null one. -/
def QImage.drawImage (host : Host Files) (dst src : QImage) : QImage :=
  if dst.isNull then dst
  else { dst with pixel := fun x y =>
           if x < src.width ∧ y < src.height then QImage.over host (src.pixel x y) (dst.pixel x y)
           else dst.pixel x y }

/-- The call `loadedImage.load(fileName)` on a fresh image: the image read, and
whether it is non-null. -/
def QImage.load (host : Host Files) (fs : Files) (fileName : String) : Bool × QImage :=
  let img := host.read fs fileName
  (!img.isNull, img)

/-- The call `image.save(fileName, format)`: fails on a null image, otherwise
what the writer does. -/
def QImage.save (host : Host Files) (fs : Files) (img : QImage)
    (fileName fileFormat : String) : Bool × Files :=
  if img.isNull then (false, fs) else host.write fs img fileName fileFormat

/-- A painter on `img` drawing one line: inactive on a null image. -/
def QImage.drawLine (host : Host Files) (img : QImage) (pen : QPen) (p1 p2 : QPoint) : QImage :=
  if img.isNull then img else { img with pixel := host.drawLine img pen p1 p2 }

/-! ## The canvas -/

/-- The canvas widget: its widget size (`QWidget::size()`) and its members. -/
structure ScribbleArea where
  size : QSize
  modified : Bool
  scribbling : Bool
  myPenWidth : Int
  myPenColor : QColor
  image : QImage
  lastPoint : QPoint

namespace ScribbleArea

/-- The constructor.  `QWidget(parent)` fixes the initial widget size before any
resize event (Qt: 640×480 without a parent, 100×30 with one); `image` and
`lastPoint` are default-constructed. -/
def init (initSize : QSize) : ScribbleArea :=
  { size := initSize
    modified := false
    scribbling := false
    myPenWidth := 1
    myPenColor := Qt.blue
    image := QImage.null
    lastPoint := ⟨0, 0⟩ }

/-- The accessor `isModified`. -/
def isModified (s : ScribbleArea) : Bool := s.modified

/-- The private helper `resizeImage(&image, newSize)`, returning the new `*image`. -/
def resizeImage (host : Host Files) (image : QImage) (newSize : QSize) : QImage :=
  if image.size = newSize then image
  else
    let newImage := (QImage.create newSize).fill (qRgb 255 255 255)
    QImage.drawImage host newImage image

/-- The method `openImage(fileName)`: the returned flag and the canvas afterwards. -/
def openImage (host : Host Files) (fs : Files) (s : ScribbleArea) (fileName : String) :
    Bool × ScribbleArea :=
  let loaded := QImage.load host fs fileName
  if !loaded.1 then (false, s)
  else
    let newSize := loaded.2.size.expandedTo s.size
    let loadedImage := resizeImage host loaded.2 newSize
    (true, { s with image := loadedImage, modified := false })

/-- The method `saveImage(fileName, fileFormat)`: the returned flag, the canvas
and the files afterwards. -/
def saveImage (host : Host Files) (fs : Files) (s : ScribbleArea)
    (fileName fileFormat : String) : Bool × ScribbleArea × Files :=
  let visibleImage := resizeImage host s.image s.size
  let saved := QImage.save host fs visibleImage fileName fileFormat
  if saved.1 then (true, { s with modified := false }, saved.2)
  else (false, s, saved.2)

/-- The setter `setPenColor`. -/
def setPenColor (s : ScribbleArea) (newColor : QColor) : ScribbleArea :=
  { s with myPenColor := newColor }

/-- The setter `setPenWidth`. -/
def setPenWidth (s : ScribbleArea) (newWidth : Int) : ScribbleArea :=
  { s with myPenWidth := newWidth }

/-- The slot `clearImage`. -/
def clearImage (s : ScribbleArea) : ScribbleArea :=
  { s with image := s.image.fill (qRgb 255 255 255), modified := true }

/-- The private helper `drawLineTo(endPoint)`. -/
def drawLineTo (host : Host Files) (s : ScribbleArea) (endPoint : QPoint) : ScribbleArea :=
  { s with
    image := QImage.drawLine host s.image ⟨s.myPenColor, s.myPenWidth⟩ s.lastPoint endPoint
    modified := true
    lastPoint := endPoint }

/-- The handler `mousePressEvent`. -/
def mousePressEvent (s : ScribbleArea) (event : QMouseEvent) : ScribbleArea :=
  if event.button = Qt.LeftButton then
    { s with lastPoint := event.pos, scribbling := true }
  else s

/-- The handler `mouseMoveEvent`. -/
def mouseMoveEvent (host : Host Files) (s : ScribbleArea) (event : QMouseEvent) :
    ScribbleArea :=
  if (event.buttons &&& Qt.LeftButton ≠ 0) ∧ s.scribbling = true then
    drawLineTo host s event.pos
  else s

/-- The handler `mouseReleaseEvent`. -/
def mouseReleaseEvent (host : Host Files) (s : ScribbleArea) (event : QMouseEvent) :
    ScribbleArea :=
  if event.button = Qt.LeftButton ∧ s.scribbling = true then
    { drawLineTo host s event.pos with scribbling := false }
  else s

/-- The handler `resizeEvent`, run when `width()` and `height()` already report
the new widget size. -/
def resizeEvent (host : Host Files) (s : ScribbleArea) : ScribbleArea :=
  if s.size.width > s.image.width ∨ s.size.height > s.image.height then
    let newWidth := max (s.size.width + 128) s.image.width
    let newHeight := max (s.size.height + 128) s.image.height
    { s with image := resizeImage host s.image ⟨newWidth, newHeight⟩ }
  else s

/-- A change of the widget size to `newSize`: Qt stores the new geometry and
delivers the resize event. -/
def resize (host : Host Files) (s : ScribbleArea) (newSize : QSize) : ScribbleArea :=
  resizeEvent host { s with size := newSize }

end ScribbleArea

/-! ## Sequences of canvas operations -/

/-- One operation on the canvas: an event Qt delivers or a public method the
window shell calls. -/
inductive Op where
  | mousePress (event : QMouseEvent)
  | mouseMove (event : QMouseEvent)
  | mouseRelease (event : QMouseEvent)
  | clear
  | resize (newSize : QSize)
  | openImage (fileName : String)
  | saveImage (fileName fileFormat : String)
  | setPenColor (newColor : QColor)
  | setPenWidth (newWidth : Int)

/-- The canvas and the files after one operation. -/
def step (host : Host Files) (st : ScribbleArea × Files) : Op → ScribbleArea × Files
  | .mousePress event => (st.1.mousePressEvent event, st.2)
  | .mouseMove event => (st.1.mouseMoveEvent host event, st.2)
  | .mouseRelease event => (st.1.mouseReleaseEvent host event, st.2)
  | .clear => (st.1.clearImage, st.2)
  | .resize newSize => (st.1.resize host newSize, st.2)
  | .openImage fileName => ((st.1.openImage host st.2 fileName).2, st.2)
  | .saveImage fileName fileFormat => (st.1.saveImage host st.2 fileName fileFormat).2
  | .setPenColor newColor => (st.1.setPenColor newColor, st.2)
  | .setPenWidth newWidth => (st.1.setPenWidth newWidth, st.2)

/-- The canvas and the files after a sequence of operations, first to last. -/
def run (host : Host Files) (st : ScribbleArea × Files) (ops : List Op) :
    ScribbleArea × Files :=
  ops.foldl (step host) st

/-- The buffer is at least as large as the widget in both dimensions. -/
def Covers (s : ScribbleArea) : Prop :=
  s.size.width ≤ s.image.width ∧ s.size.height ≤ s.image.height

instance (s : ScribbleArea) : Decidable (Covers s) := by
  unfold Covers; infer_instance

/-! ## The window shell -/

/-- The buttons of the unsaved-changes box, from `QMessageBox::StandardButton`. -/
inductive StandardButton where
  | Save
  | Discard
  | Cancel
  deriving DecidableEq, Repr

/-- What the user answers when a dialog is shown. -/
structure Dialogs where
  /-- The button `QMessageBox::warning` returns. -/
  warning : StandardButton
  /-- The path `QFileDialog::getSaveFileName` returns; empty when dismissed. -/
  getSaveFileName : String

/-- A call the window shell makes to a dialog or to the canvas's `saveImage`. -/
inductive Call where
  | warning
  | getSaveFileName
  | saveImage (fileName fileFormat : String)
  deriving DecidableEq, Repr

/-- The window: it owns the canvas. -/
structure MainWindow where
  scribbleArea : ScribbleArea

/-- What a window method leaves behind: its return value (for `closeEvent`,
whether the event was accepted), the window, the files and the calls made. -/
structure Outcome (Files : Type) where
  result : Bool
  window : MainWindow
  files : Files
  calls : List Call

namespace MainWindow

/-- The method `saveFile(fileFormat)`. -/
def saveFile (host : Host Files) (ui : Dialogs) (fs : Files) (w : MainWindow)
    (fileFormat : String) : Outcome Files :=
  let fileName := ui.getSaveFileName
  if fileName = "" then
    ⟨false, w, fs, [Call.getSaveFileName]⟩
  else
    let r := w.scribbleArea.saveImage host fs fileName fileFormat
    ⟨r.1, { w with scribbleArea := r.2.1 }, r.2.2,
      [Call.getSaveFileName, Call.saveImage fileName fileFormat]⟩

/-- The method `maybeSave()`. -/
def maybeSave (host : Host Files) (ui : Dialogs) (fs : Files) (w : MainWindow) :
    Outcome Files :=
  if w.scribbleArea.isModified then
    let ret := ui.warning
    if ret = StandardButton.Save then
      let r := saveFile host ui fs w "png"
      { r with calls := Call.warning :: r.calls }
    else if ret = StandardButton.Cancel then
      ⟨false, w, fs, [Call.warning]⟩
    else
      ⟨true, w, fs, [Call.warning]⟩
  else
    ⟨true, w, fs, []⟩

/-- The handler `closeEvent`: `result` is true when the event is accepted and
false when it is ignored. -/
def closeEvent (host : Host Files) (ui : Dialogs) (fs : Files) (w : MainWindow) :
    Outcome Files :=
  let r := maybeSave host ui fs w
  if r.result then { r with result := true } else { r with result := false }

end MainWindow

/-! ## A host that keeps files in memory -/

/-- Files held as a list of named images, newest first. -/
abbrev MemFiles := List (String × QImage)

/-- The image stored under a name, or the null image. -/
def MemFiles.find : MemFiles → String → QImage
  | [], _ => QImage.null
  | (name, img) :: rest, fileName => if name = fileName then img else MemFiles.find rest fileName

/-- One colour channel of a source with alpha `a` over a destination. -/
def mixChannel (a src dst : Nat) : Nat := (src * a + dst * (255 - a)) / 255

/-- Source-over blending channel by channel, weighted by the source alpha. -/
def mixOver (src dst : QRgb) : QRgb :=
  qRgb (mixChannel (qAlpha src) (qRed src) (qRed dst))
    (mixChannel (qAlpha src) (qGreen src) (qGreen dst))
    (mixChannel (qAlpha src) (qBlue src) (qBlue dst))

/-- A pen stroke reduced to its end point: the pixel under `p2` takes the pen
colour when `p2` has non-negative coordinates. -/
def dotLine (img : QImage) (pen : QPen) (_p1 p2 : QPoint) : Nat → Nat → QRgb :=
  fun x y => if (x : Int) = p2.x ∧ (y : Int) = p2.y then pen.color else img.pixel x y

/-- A lossless in-memory host: writing stores the image itself under the name
(and fails only for an empty name), reading returns what was stored. -/
def memHost : Host MemFiles where
  read := MemFiles.find
  write := fun fs img fileName _ =>
    if fileName = "" then (false, fs) else (true, (fileName, img) :: fs)
  drawLine := dotLine
  blend := mixOver

/-- A host whose reader and writer always fail. -/
def failingHost : Host MemFiles where
  read := fun _ _ => QImage.null
  write := fun fs _ _ _ => (false, fs)
  drawLine := dotLine
  blend := mixOver

/-- A plain image of one colour. -/
def solid (w h : Nat) (c : QRgb) : QImage := ⟨w, h, fun _ _ => c⟩

/-- Files holding one decodable 100×100 black image, "small.png". -/
def smallFile : MemFiles := [("small.png", solid 100 100 (qRgb 0 0 0))]

/-- Files holding one decodable 300×300 image, "glass.png", every pixel the
half-transparent red 0x80ff0000. -/
def glassFile : MemFiles := [("glass.png", solid 300 300 0x80ff0000)]

/-- The operations that leave a 100×100 widget showing "glass.png": the first
resize, then the open, which installs the 300×300 image as decoded. -/
def glassOps : List Op := [Op.resize ⟨100, 100⟩, Op.openImage "glass.png"]

/-- A canvas with a 300×200 widget and a black 300×200 buffer, modified. -/
def blackCanvas : ScribbleArea :=
  { size := ⟨300, 200⟩
    modified := true
    scribbling := false
    myPenWidth := 4
    myPenColor := qRgb 0 0 0
    image := solid 300 200 (qRgb 0 0 0)
    lastPoint := ⟨10, 50⟩ }

/-- The operations before the stroke used in the examples: the first resize and
a primary press at (10, 10). -/
def pressedOps : List Op :=
  [Op.resize ⟨500, 500⟩, Op.mousePress ⟨Qt.LeftButton, Qt.LeftButton, ⟨10, 10⟩⟩]

/-- A codec is lossless on a host when reading a path just written returns an
image of the same dimensions with the same pixels. -/
def Lossless (host : Host Files) : Prop :=
  ∀ (fs : Files) (img : QImage) (fileName fileFormat : String),
    (host.write fs img fileName fileFormat).1 = true →
      (host.read (host.write fs img fileName fileFormat).2 fileName).width = img.width ∧
      (host.read (host.write fs img fileName fileFormat).2 fileName).height = img.height ∧
      ∀ x y, x < img.width → y < img.height →
        (host.read (host.write fs img fileName fileFormat).2 fileName).pixel x y = img.pixel x y

/-! ## Facts about the image helpers -/

theorem QImage.create_of_pos (sz : QSize) (hw : 0 < sz.width) (hh : 0 < sz.height) :
    QImage.create sz = ⟨sz.width, sz.height, fun _ _ => 0⟩ := by
  have h : ¬ (sz.width = 0 ∨ sz.height = 0) := by omega
  simp [QImage.create, h]

theorem QImage.isNull_eq_false {img : QImage} (hw : 0 < img.width) (hh : 0 < img.height) :
    img.isNull = false := by
  have h1 : img.width ≠ 0 := by omega
  have h2 : img.height ≠ 0 := by omega
  simp [QImage.isNull, h1, h2]

theorem QImage.pos_of_isNull_eq_false {img : QImage} (h : img.isNull = false) :
    0 < img.width ∧ 0 < img.height := by
  simp [QImage.isNull] at h
  omega

/-- A pixel painted onto a `Format_RGB32` image is opaque when the source pixel
was opaque or was blended. -/
theorem QImage.over_alpha (host : Host Files) (src dst : QRgb) :
    qAlpha (QImage.over host src dst) = 255 := by
  unfold QImage.over
  split
  · assumption
  · unfold qAlpha
    have hlt : host.blend src dst &&& 0xffffff < 2 ^ 24 := Nat.and_lt_two_pow _ (by norm_num)
    have hor : (0xff <<< 24) ||| (host.blend src dst &&& 0xffffff) =
        2 ^ 24 * 0xff + (host.blend src dst &&& 0xffffff) := by
      rw [Nat.mul_add_lt_is_or hlt 0xff, Nat.shiftLeft_eq, Nat.mul_comm]
    rw [hor, Nat.shiftRight_eq_div_pow]
    rw [Nat.mul_add_div (by norm_num : 0 < 2 ^ 24), Nat.div_eq_of_lt hlt]
    decide

/-- A reallocation by `resizeImage` to a size with positive sides: the exact
dimensions and the pixel grid. -/
theorem ScribbleArea.resizeImage_realloc (host : Host Files) (image : QImage) (newSize : QSize)
    (hne : image.size ≠ newSize) (hw : 0 < newSize.width) (hh : 0 < newSize.height) :
    ScribbleArea.resizeImage host image newSize =
      ⟨newSize.width, newSize.height, fun x y =>
        if x < image.width ∧ y < image.height then
          QImage.over host (image.pixel x y) (qRgb 255 255 255)
        else qRgb 255 255 255⟩ := by
  have h1 : newSize.width ≠ 0 := by omega
  have h2 : newSize.height ≠ 0 := by omega
  simp [ScribbleArea.resizeImage, hne, QImage.create_of_pos newSize hw hh, QImage.fill,
    QImage.drawImage, QImage.isNull, h1, h2]

/-- The image `resizeImage` returns has the requested dimensions whenever both
are positive. -/
theorem ScribbleArea.resizeImage_size (host : Host Files) (image : QImage) (newSize : QSize)
    (hw : 0 < newSize.width) (hh : 0 < newSize.height) :
    (ScribbleArea.resizeImage host image newSize).width = newSize.width ∧
      (ScribbleArea.resizeImage host image newSize).height = newSize.height := by
  by_cases hne : image.size = newSize
  · simp only [ScribbleArea.resizeImage, hne, if_true]
    rw [← hne]
    exact ⟨rfl, rfl⟩
  · rw [ScribbleArea.resizeImage_realloc host image newSize hne hw hh]
    exact ⟨rfl, rfl⟩

/-- A resize event that finds the widget larger than the buffer in some
dimension reallocates the buffer. -/
theorem ScribbleArea.resizeEvent_grow (host : Host Files) (s : ScribbleArea)
    (h : s.size.width > s.image.width ∨ s.size.height > s.image.height) :
    s.resizeEvent host =
      { s with image :=
          ⟨max (s.size.width + 128) s.image.width, max (s.size.height + 128) s.image.height,
            fun x y =>
              if x < s.image.width ∧ y < s.image.height then
                QImage.over host (s.image.pixel x y) (qRgb 255 255 255)
              else qRgb 255 255 255⟩ } := by
  have hne : s.image.size ≠
      ⟨max (s.size.width + 128) s.image.width, max (s.size.height + 128) s.image.height⟩ := by
    intro heq
    have hw : s.image.width = max (s.size.width + 128) s.image.width :=
      congrArg QSize.width heq
    have hh : s.image.height = max (s.size.height + 128) s.image.height :=
      congrArg QSize.height heq
    have h1 : s.size.width + 128 ≤ max (s.size.width + 128) s.image.width := le_max_left _ _
    have h2 : s.size.height + 128 ≤ max (s.size.height + 128) s.image.height := le_max_left _ _
    omega
  have hw : 0 < max (s.size.width + 128) s.image.width :=
    lt_of_lt_of_le (by omega) (le_max_left _ _)
  have hh : 0 < max (s.size.height + 128) s.image.height :=
    lt_of_lt_of_le (by omega) (le_max_left _ _)
  have hr := ScribbleArea.resizeImage_realloc host s.image _ hne hw hh
  simp only [ScribbleArea.resizeEvent, h, if_true]
  rw [hr]

/-- A resize event that finds the widget within the buffer does nothing. -/
theorem ScribbleArea.resizeEvent_within (host : Host Files) (s : ScribbleArea)
    (hw : s.size.width ≤ s.image.width) (hh : s.size.height ≤ s.image.height) :
    s.resizeEvent host = s := by
  have h : ¬ (s.size.width > s.image.width ∨ s.size.height > s.image.height) := by omega
  simp only [ScribbleArea.resizeEvent, h, if_false]

/-! ## The modified flag -/

/-- C1: after any sequence of operations from any canvas state, the modified
flag is true right after an operation that draws a stroke segment (a move with
the primary button held while drawing, a primary release while drawing) and
right after clear, and it is false right after an openImage or a saveImage
that returns true. -/
theorem modified_flag_after_operations (host : Host Files) (st : ScribbleArea × Files)
    (ops : List Op) :
    (∀ p : QPoint, ((run host st ops).1.drawLineTo host p).modified = true) ∧
    (∀ e : QMouseEvent, e.buttons &&& Qt.LeftButton ≠ 0 →
      (run host st ops).1.scribbling = true →
      (step host (run host st ops) (Op.mouseMove e)).1.modified = true) ∧
    (∀ e : QMouseEvent, e.button = Qt.LeftButton →
      (run host st ops).1.scribbling = true →
      (step host (run host st ops) (Op.mouseRelease e)).1.modified = true) ∧
    (step host (run host st ops) Op.clear).1.modified = true ∧
    (∀ fileName : String,
      ((run host st ops).1.openImage host (run host st ops).2 fileName).1 = true →
      (step host (run host st ops) (Op.openImage fileName)).1.modified = false) ∧
    (∀ fileName fileFormat : String,
      ((run host st ops).1.saveImage host (run host st ops).2 fileName fileFormat).1 = true →
      (step host (run host st ops) (Op.saveImage fileName fileFormat)).1.modified = false) := by
  generalize run host st ops = cur
  refine ⟨fun p => rfl, ?_, ?_, rfl, ?_, ?_⟩
  · intro e hb hs
    simp [step, ScribbleArea.mouseMoveEvent, hb, hs, ScribbleArea.drawLineTo]
  · intro e hb hs
    simp [step, ScribbleArea.mouseReleaseEvent, hb, hs, ScribbleArea.drawLineTo]
  · intro fileName h
    simp only [step]
    unfold ScribbleArea.openImage at h ⊢
    by_cases hl : (QImage.load host cur.2 fileName).1 = true
    · simp [hl]
    · simp [hl] at h
  · intro fileName fileFormat h
    simp only [step]
    unfold ScribbleArea.saveImage at h ⊢
    by_cases hl : (QImage.save host cur.2 (ScribbleArea.resizeImage host cur.1.image cur.1.size)
        fileName fileFormat).1 = true
    · simp [hl]
    · simp [hl] at h

/-- C1 at a concrete run: on the in-memory host, after the first resize and a
primary press, a move with the primary button held and a clear set the flag,
and a successful save to "a.png" resets it. -/
theorem modified_flag_after_operations_witness :
    (step memHost (run memHost (ScribbleArea.init ⟨640, 480⟩, []) pressedOps)
      (Op.mouseMove ⟨0, Qt.LeftButton, ⟨10, 50⟩⟩)).1.modified = true ∧
    (step memHost (run memHost (ScribbleArea.init ⟨640, 480⟩, []) pressedOps)
      (Op.saveImage "a.png" "png")).1.modified = false :=
  ⟨(modified_flag_after_operations memHost (ScribbleArea.init ⟨640, 480⟩, []) pressedOps).2.1
      ⟨0, Qt.LeftButton, ⟨10, 50⟩⟩ (by decide) (by decide),
   (modified_flag_after_operations memHost (ScribbleArea.init ⟨640, 480⟩, []) pressedOps).2.2.2.2.2
      "a.png" "png" (by decide)⟩

/-! ## Buffer size -/

theorem QImage.fill_dims (img : QImage) (c : QRgb) :
    (img.fill c).width = img.width ∧ (img.fill c).height = img.height := by
  unfold QImage.fill
  split <;> exact ⟨rfl, rfl⟩

theorem QImage.drawLine_dims (host : Host Files) (img : QImage) (pen : QPen) (p1 p2 : QPoint) :
    (QImage.drawLine host img pen p1 p2).width = img.width ∧
      (QImage.drawLine host img pen p1 p2).height = img.height := by
  unfold QImage.drawLine
  split <;> exact ⟨rfl, rfl⟩

/-- The buffer dimensions after a resize event. -/
theorem ScribbleArea.resizeEvent_dims (host : Host Files) (s : ScribbleArea) :
    (s.resizeEvent host).size = s.size ∧
    (s.size.width > s.image.width ∨ s.size.height > s.image.height →
      (s.resizeEvent host).image.width = max (s.size.width + 128) s.image.width ∧
      (s.resizeEvent host).image.height = max (s.size.height + 128) s.image.height) ∧
    (¬ (s.size.width > s.image.width ∨ s.size.height > s.image.height) →
      (s.resizeEvent host).image = s.image) := by
  by_cases h : s.size.width > s.image.width ∨ s.size.height > s.image.height
  · rw [ScribbleArea.resizeEvent_grow host s h]
    exact ⟨rfl, fun _ => ⟨rfl, rfl⟩, fun hn => absurd h hn⟩
  · have hs : s.resizeEvent host = s := by
      simp only [ScribbleArea.resizeEvent, h, if_false]
    rw [hs]
    exact ⟨rfl, fun hp => absurd hp h, fun _ => rfl⟩

/-- Every resize event leaves the buffer covering the widget. -/
theorem ScribbleArea.covers_resize (host : Host Files) (s : ScribbleArea) (newSize : QSize) :
    Covers (s.resize host newSize) := by
  have hd := ScribbleArea.resizeEvent_dims host { s with size := newSize }
  unfold Covers ScribbleArea.resize
  by_cases h : newSize.width > s.image.width ∨ newSize.height > s.image.height
  · obtain ⟨hsz, hg, _⟩ := hd
    obtain ⟨hw, hh⟩ := hg h
    rw [hsz, hw, hh]
    constructor
    · exact le_trans (Nat.le_add_right _ _) (le_max_left _ _)
    · exact le_trans (Nat.le_add_right _ _) (le_max_left _ _)
  · obtain ⟨hsz, _, hk⟩ := hd
    rw [hsz, hk h]
    simp only [not_or, not_lt] at h
    exact h

/-- What a successful openImage leaves: the loaded image was not null, the
buffer has the larger of the loaded and the widget size in each dimension, and
the widget size is unchanged. -/
theorem ScribbleArea.openImage_true (host : Host Files) (fs : Files) (s : ScribbleArea)
    (fileName : String) (h : (s.openImage host fs fileName).1 = true) :
    (host.read fs fileName).isNull = false ∧
    (s.openImage host fs fileName).2 =
      { s with
        image := ScribbleArea.resizeImage host (host.read fs fileName)
          ((host.read fs fileName).size.expandedTo s.size)
        modified := false } ∧
    (s.openImage host fs fileName).2.image.width = max (host.read fs fileName).width s.size.width ∧
    (s.openImage host fs fileName).2.image.height =
      max (host.read fs fileName).height s.size.height := by
  by_cases hn : (host.read fs fileName).isNull = true
  · simp [ScribbleArea.openImage, QImage.load, hn] at h
  · have hn2 : (host.read fs fileName).isNull = false := by simpa using hn
    obtain ⟨hw, hh⟩ := QImage.pos_of_isNull_eq_false hn2
    have hsz := ScribbleArea.resizeImage_size host (host.read fs fileName)
      ((host.read fs fileName).size.expandedTo s.size)
      (lt_of_lt_of_le hw (le_max_left _ _)) (lt_of_lt_of_le hh (le_max_left _ _))
    refine ⟨hn2, ?_, ?_, ?_⟩
    · simp [ScribbleArea.openImage, QImage.load, hn2]
    · simp only [ScribbleArea.openImage, QImage.load, hn2]
      exact hsz.1
    · simp only [ScribbleArea.openImage, QImage.load, hn2]
      exact hsz.2

/-- A failing openImage returns the canvas it was given. -/
theorem ScribbleArea.openImage_false (host : Host Files) (fs : Files) (s : ScribbleArea)
    (fileName : String) (h : (s.openImage host fs fileName).1 = false) :
    (s.openImage host fs fileName).2 = s := by
  by_cases hn : (host.read fs fileName).isNull = true
  · simp [ScribbleArea.openImage, QImage.load, hn]
  · have hn2 : (host.read fs fileName).isNull = false := by simpa using hn
    simp [ScribbleArea.openImage, QImage.load, hn2] at h

/-- The method saveImage changes nothing of the canvas but the modified flag. -/
theorem ScribbleArea.saveImage_canvas (host : Host Files) (fs : Files) (s : ScribbleArea)
    (fileName fileFormat : String) :
    (s.saveImage host fs fileName fileFormat).2.1 = s ∨
      (s.saveImage host fs fileName fileFormat).2.1 = { s with modified := false } := by
  unfold ScribbleArea.saveImage
  by_cases hl : (QImage.save host fs (ScribbleArea.resizeImage host s.image s.size)
      fileName fileFormat).1 = true
  · right; simp [hl]
  · left; simp [hl]

/-- The widget size changes only in a resize event. -/
theorem step_size (host : Host Files) (st : ScribbleArea × Files) (op : Op)
    (h : ∀ newSize, op ≠ Op.resize newSize) : (step host st op).1.size = st.1.size := by
  cases op with
  | mousePress e =>
    simp only [step, ScribbleArea.mousePressEvent]
    split <;> rfl
  | mouseMove e =>
    simp only [step, ScribbleArea.mouseMoveEvent]
    split <;> rfl
  | mouseRelease e =>
    simp only [step, ScribbleArea.mouseReleaseEvent]
    split <;> rfl
  | clear => rfl
  | resize newSize => exact absurd rfl (h newSize)
  | openImage fileName =>
    simp only [step]
    cases hr : (st.1.openImage host st.2 fileName).1
    · rw [ScribbleArea.openImage_false host st.2 st.1 fileName hr]
    · rw [(ScribbleArea.openImage_true host st.2 st.1 fileName hr).2.1]
  | saveImage fileName fileFormat =>
    simp only [step]
    rcases ScribbleArea.saveImage_canvas host st.2 st.1 fileName fileFormat with h1 | h1 <;>
      rw [h1]
  | setPenColor c => rfl
  | setPenWidth w => rfl

/-- Every operation other than a successful openImage leaves each buffer
dimension at least what it was. -/
theorem step_dims_mono (host : Host Files) (st : ScribbleArea × Files) (op : Op)
    (h : ∀ fileName, op = Op.openImage fileName →
      (st.1.openImage host st.2 fileName).1 = false) :
    st.1.image.width ≤ (step host st op).1.image.width ∧
      st.1.image.height ≤ (step host st op).1.image.height := by
  cases op with
  | mousePress e =>
    simp only [step, ScribbleArea.mousePressEvent]
    split <;> exact ⟨le_refl _, le_refl _⟩
  | mouseMove e =>
    simp only [step, ScribbleArea.mouseMoveEvent]
    split
    · simp only [ScribbleArea.drawLineTo]
      have hd := QImage.drawLine_dims host st.1.image ⟨st.1.myPenColor, st.1.myPenWidth⟩
        st.1.lastPoint e.pos
      exact ⟨le_of_eq hd.1.symm, le_of_eq hd.2.symm⟩
    · exact ⟨le_refl _, le_refl _⟩
  | mouseRelease e =>
    simp only [step, ScribbleArea.mouseReleaseEvent]
    split
    · simp only [ScribbleArea.drawLineTo]
      have hd := QImage.drawLine_dims host st.1.image ⟨st.1.myPenColor, st.1.myPenWidth⟩
        st.1.lastPoint e.pos
      exact ⟨le_of_eq hd.1.symm, le_of_eq hd.2.symm⟩
    · exact ⟨le_refl _, le_refl _⟩
  | clear =>
    simp only [step, ScribbleArea.clearImage]
    have hd := QImage.fill_dims st.1.image (qRgb 255 255 255)
    exact ⟨le_of_eq hd.1.symm, le_of_eq hd.2.symm⟩
  | resize newSize =>
    simp only [step, ScribbleArea.resize]
    have hd := ScribbleArea.resizeEvent_dims host { st.1 with size := newSize }
    by_cases hg : newSize.width > st.1.image.width ∨ newSize.height > st.1.image.height
    · obtain ⟨hw, hh⟩ := hd.2.1 hg
      rw [hw, hh]
      exact ⟨le_max_right _ _, le_max_right _ _⟩
    · rw [hd.2.2 hg]
      exact ⟨le_refl _, le_refl _⟩
  | openImage fileName =>
    simp only [step]
    rw [ScribbleArea.openImage_false host st.2 st.1 fileName (h fileName rfl)]
    exact ⟨le_refl _, le_refl _⟩
  | saveImage fileName fileFormat =>
    simp only [step]
    rcases ScribbleArea.saveImage_canvas host st.2 st.1 fileName fileFormat with h1 | h1 <;>
      rw [h1] <;> exact ⟨le_refl _, le_refl _⟩
  | setPenColor c => exact ⟨le_refl _, le_refl _⟩
  | setPenWidth w => exact ⟨le_refl _, le_refl _⟩

/-- Every operation keeps the buffer covering the widget. -/
theorem covers_step (host : Host Files) (st : ScribbleArea × Files) (op : Op)
    (hc : Covers st.1) : Covers (step host st op).1 := by
  by_cases hres : ∃ newSize, op = Op.resize newSize
  · obtain ⟨newSize, rfl⟩ := hres
    exact ScribbleArea.covers_resize host st.1 newSize
  · have hsz := step_size host st op (fun newSize he => hres ⟨newSize, he⟩)
    by_cases hop : ∃ fileName, op = Op.openImage fileName ∧
        (st.1.openImage host st.2 fileName).1 = true
    · obtain ⟨fileName, rfl, ht⟩ := hop
      obtain ⟨_, _, hw, hh⟩ := ScribbleArea.openImage_true host st.2 st.1 fileName ht
      unfold Covers
      rw [hsz]
      simp only [step]
      rw [hw, hh]
      exact ⟨le_max_right _ _, le_max_right _ _⟩
    · have hm := step_dims_mono host st op (by
        intro fileName he
        cases hr : (st.1.openImage host st.2 fileName).1
        · rfl
        · exact absurd ⟨fileName, he, hr⟩ hop)
      unfold Covers at hc ⊢
      rw [hsz]
      exact ⟨le_trans hc.1 hm.1, le_trans hc.2 hm.2⟩

/-- A run keeps the buffer covering the widget. -/
theorem covers_run (host : Host Files) (ops : List Op) (st : ScribbleArea × Files)
    (hc : Covers st.1) : Covers (run host st ops).1 := by
  induction ops generalizing st with
  | nil => exact hc
  | cons op rest ih => exact ih (step host st op) (covers_step host st op hc)

theorem run_append (host : Host Files) (st : ScribbleArea × Files) (ops1 ops2 : List Op) :
    run host st (ops1 ++ ops2) = run host (run host st ops1) ops2 := by
  simp [run, List.foldl_append]

/-- C2 (as amended): from the constructed canvas, whatever its initial widget
size, once a resize event has been delivered the buffer is at least as wide
and as high as the widget after every further sequence of operations; when the
widget is constructed with size 0×0 this holds in every reachable state. -/
theorem buffer_covers_widget_after_first_resize (host : Host Files) (initSize : QSize)
    (fs : Files) (before : List Op) (newSize : QSize) (after : List Op) :
    Covers (run host (ScribbleArea.init initSize, fs)
      (before ++ Op.resize newSize :: after)).1 ∧
    Covers (run host (ScribbleArea.init ⟨0, 0⟩, fs) after).1 := by
  constructor
  · rw [run_append]
    exact covers_run host after _
      (ScribbleArea.covers_resize host (run host (ScribbleArea.init initSize, fs) before).1 newSize)
  · exact covers_run host after _ ⟨le_refl _, le_refl _⟩

/-- C2 as stated fails before the first resize event: the canvas constructed
with the widget size 640×480 has a 0×0 buffer, also after a clear and a
primary press. -/
theorem buffer_covers_widget_counterexample :
    (run memHost (ScribbleArea.init ⟨640, 480⟩, []) []).1.image.width = 0 ∧
    (run memHost (ScribbleArea.init ⟨640, 480⟩, []) []).1.size.width = 640 ∧
    ¬ Covers (run memHost (ScribbleArea.init ⟨640, 480⟩, []) []).1 ∧
    ¬ Covers (run memHost (ScribbleArea.init ⟨640, 480⟩, [])
      [Op.clear, Op.mousePress ⟨Qt.LeftButton, Qt.LeftButton, ⟨10, 10⟩⟩]).1 := by
  decide

/-- C3 (as amended): every operation other than an openImage that returns true
(resize event, pointer event, clear, saveImage, pen setter, failing openImage)
leaves the buffer width and height at least what they were; an openImage that
returns true replaces the buffer by one whose width and height are the larger
of the loaded image and the widget, whatever the buffer was before. -/
theorem buffer_never_shrinks_except_open (host : Host Files) (st : ScribbleArea × Files)
    (op : Op) :
    ((∀ fileName, op = Op.openImage fileName →
        (st.1.openImage host st.2 fileName).1 = false) →
      st.1.image.width ≤ (step host st op).1.image.width ∧
      st.1.image.height ≤ (step host st op).1.image.height) ∧
    (∀ fileName, op = Op.openImage fileName →
      (st.1.openImage host st.2 fileName).1 = true →
      (step host st op).1.image.width = max (host.read st.2 fileName).width st.1.size.width ∧
      (step host st op).1.image.height =
        max (host.read st.2 fileName).height st.1.size.height) := by
  refine ⟨step_dims_mono host st op, ?_⟩
  intro fileName he ht
  subst he
  obtain ⟨_, _, hw, hh⟩ := ScribbleArea.openImage_true host st.2 st.1 fileName ht
  exact ⟨hw, hh⟩

/-- C3 (as amended) at concrete inputs: a resize to 700×300 on the 628×628
buffer keeps the width, and opening the 100×100 file gives a 500×500 buffer. -/
theorem buffer_never_shrinks_except_open_witness :
    (628 ≤ (step memHost (run memHost (ScribbleArea.init ⟨640, 480⟩, smallFile)
        [Op.resize ⟨500, 500⟩]) (Op.resize ⟨700, 300⟩)).1.image.width ∧
      628 ≤ (step memHost (run memHost (ScribbleArea.init ⟨640, 480⟩, smallFile)
        [Op.resize ⟨500, 500⟩]) (Op.resize ⟨700, 300⟩)).1.image.height) ∧
    ((step memHost (run memHost (ScribbleArea.init ⟨640, 480⟩, smallFile)
        [Op.resize ⟨500, 500⟩]) (Op.openImage "small.png")).1.image.width = max 100 500 ∧
      (step memHost (run memHost (ScribbleArea.init ⟨640, 480⟩, smallFile)
        [Op.resize ⟨500, 500⟩]) (Op.openImage "small.png")).1.image.height = max 100 500) :=
  ⟨(buffer_never_shrinks_except_open memHost
      (run memHost (ScribbleArea.init ⟨640, 480⟩, smallFile) [Op.resize ⟨500, 500⟩])
      (Op.resize ⟨700, 300⟩)).1 (by intro fileName he; cases he),
   (buffer_never_shrinks_except_open memHost
      (run memHost (ScribbleArea.init ⟨640, 480⟩, smallFile) [Op.resize ⟨500, 500⟩])
      (Op.openImage "small.png")).2 "small.png" rfl (by decide)⟩

/-- C3 as stated fails for openImage: with a 500×500 widget the buffer is
628×628; opening a decodable 100×100 image returns true and leaves a 500×500
buffer, smaller than before in both dimensions. -/
theorem buffer_never_shrinks_counterexample :
    (run memHost (ScribbleArea.init ⟨640, 480⟩, smallFile)
      [Op.resize ⟨500, 500⟩]).1.image.size = ⟨628, 628⟩ ∧
    ((run memHost (ScribbleArea.init ⟨640, 480⟩, smallFile) [Op.resize ⟨500, 500⟩]).1.openImage
      memHost smallFile "small.png").1 = true ∧
    (step memHost (run memHost (ScribbleArea.init ⟨640, 480⟩, smallFile) [Op.resize ⟨500, 500⟩])
      (Op.openImage "small.png")).1.image.size = ⟨500, 500⟩ ∧
    ¬ ((run memHost (ScribbleArea.init ⟨640, 480⟩, smallFile)
        [Op.resize ⟨500, 500⟩]).1.image.width ≤
      (step memHost (run memHost (ScribbleArea.init ⟨640, 480⟩, smallFile)
        [Op.resize ⟨500, 500⟩]) (Op.openImage "small.png")).1.image.width) := by
  decide

/-! ## Resize events -/

/-- C4 (as amended): a resize event whose new widget size exceeds the buffer
in at least one dimension leaves a buffer exactly max(widget width + 128, old
buffer width) wide and max(widget height + 128, old buffer height) high; in
each dimension where the widget exceeded the old buffer that is the widget
side plus 128. -/
theorem resize_grows_to_margin_or_keeps (host : Host Files) (s : ScribbleArea) (newSize : QSize)
    (h : newSize.width > s.image.width ∨ newSize.height > s.image.height) :
    (s.resize host newSize).image.width = max (newSize.width + 128) s.image.width ∧
    (s.resize host newSize).image.height = max (newSize.height + 128) s.image.height ∧
    (newSize.width > s.image.width → (s.resize host newSize).image.width = newSize.width + 128) ∧
    (newSize.height > s.image.height →
      (s.resize host newSize).image.height = newSize.height + 128) := by
  obtain ⟨hw, hh⟩ := (ScribbleArea.resizeEvent_dims host { s with size := newSize }).2.1 h
  have hw2 : (s.resize host newSize).image.width = max (newSize.width + 128) s.image.width := hw
  have hh2 : (s.resize host newSize).image.height = max (newSize.height + 128) s.image.height := hh
  refine ⟨hw2, hh2, ?_, ?_⟩
  · intro hgt
    rw [hw2]
    exact max_eq_left (by omega)
  · intro hgt
    rw [hh2]
    exact max_eq_left (by omega)

/-- C4 (as amended) at a concrete input: the 1128×228 buffer resized for a
200×300 widget becomes 1128×428. -/
theorem resize_grows_to_margin_or_keeps_witness :
    ((run memHost (ScribbleArea.init ⟨640, 480⟩, []) [Op.resize ⟨1000, 100⟩]).1.resize
      memHost ⟨200, 300⟩).image.width = max (200 + 128) 1128 ∧
    ((run memHost (ScribbleArea.init ⟨640, 480⟩, []) [Op.resize ⟨1000, 100⟩]).1.resize
      memHost ⟨200, 300⟩).image.height = 300 + 128 :=
  ⟨(resize_grows_to_margin_or_keeps memHost
      (run memHost (ScribbleArea.init ⟨640, 480⟩, []) [Op.resize ⟨1000, 100⟩]).1 ⟨200, 300⟩
      (by decide)).1,
   (resize_grows_to_margin_or_keeps memHost
      (run memHost (ScribbleArea.init ⟨640, 480⟩, []) [Op.resize ⟨1000, 100⟩]).1 ⟨200, 300⟩
      (by decide)).2.2.2 (by decide)⟩

/-- C4 as stated fails when the widget exceeds the buffer in one dimension
only: the buffer is 1128×228 after a resize to 1000×100; a resize to 200×300
exceeds it in height alone and leaves it 1128 wide, not 200 + 128 = 328. -/
theorem resize_exact_margin_counterexample :
    (run memHost (ScribbleArea.init ⟨640, 480⟩, [])
      [Op.resize ⟨1000, 100⟩]).1.image.size = ⟨1128, 228⟩ ∧
    (300 > (run memHost (ScribbleArea.init ⟨640, 480⟩, [])
      [Op.resize ⟨1000, 100⟩]).1.image.height) ∧
    (run memHost (ScribbleArea.init ⟨640, 480⟩, [])
      [Op.resize ⟨1000, 100⟩, Op.resize ⟨200, 300⟩]).1.image.size = ⟨1128, 428⟩ ∧
    (run memHost (ScribbleArea.init ⟨640, 480⟩, [])
      [Op.resize ⟨1000, 100⟩, Op.resize ⟨200, 300⟩]).1.image.width ≠ 200 + 128 := by
  decide

/-- C5 (as amended): a resize event that grows the buffer (the new widget size
exceeds it in some dimension) keeps every pixel coordinate of the old buffer
inside the new bounds; there an opaque pixel (alpha 255) keeps its colour and
any other pixel is replaced by its source-over composition onto white, so
that every such pixel is opaque afterwards; every pixel of the new buffer
outside the old bounds is white, qRgb(255, 255, 255) = 0xffffffff. -/
theorem resize_preserves_opaque_pixels_and_fills_white (host : Host Files) (s : ScribbleArea)
    (newSize : QSize)
    (h : newSize.width > s.image.width ∨ newSize.height > s.image.height) :
    (∀ x y, x < s.image.width → y < s.image.height →
      x < (s.resize host newSize).image.width ∧ y < (s.resize host newSize).image.height ∧
      (s.resize host newSize).image.pixel x y =
        QImage.over host (s.image.pixel x y) (qRgb 255 255 255) ∧
      (qAlpha (s.image.pixel x y) = 255 →
        (s.resize host newSize).image.pixel x y = s.image.pixel x y) ∧
      qAlpha ((s.resize host newSize).image.pixel x y) = 255) ∧
    (∀ x y, x < (s.resize host newSize).image.width →
      y < (s.resize host newSize).image.height →
      ¬ (x < s.image.width ∧ y < s.image.height) →
      (s.resize host newSize).image.pixel x y = qRgb 255 255 255) ∧
    qRgb 255 255 255 = 0xffffffff ∧
    qRed (qRgb 255 255 255) = 255 ∧ qGreen (qRgb 255 255 255) = 255 ∧
    qBlue (qRgb 255 255 255) = 255 := by
  have hg := ScribbleArea.resizeEvent_grow host { s with size := newSize } h
  have hr : s.resize host newSize = _ := hg
  rw [hr]
  refine ⟨?_, ?_, by decide, by decide, by decide, by decide⟩
  · intro x y hx hy
    refine ⟨lt_of_lt_of_le hx (le_max_right _ _), lt_of_lt_of_le hy (le_max_right _ _), ?_, ?_, ?_⟩
    · simp [hx, hy]
    · intro ha
      simp [hx, hy, QImage.over, ha]
    · simp only [hx, hy, and_self, if_true]
      exact QImage.over_alpha host _ _
  · intro x y _ _ hout
    simp only [hout, if_false]

/-- C5 (as amended) at a concrete input: a black 300×200 buffer resized for a
400×100 widget keeps the opaque pixel (299, 199) black and has pixel (300, 0)
white. -/
theorem resize_preserves_opaque_pixels_and_fills_white_witness :
    (blackCanvas.resize memHost ⟨400, 100⟩).image.pixel 299 199 =
      blackCanvas.image.pixel 299 199 ∧
    (blackCanvas.resize memHost ⟨400, 100⟩).image.pixel 300 0 = qRgb 255 255 255 :=
  ⟨((resize_preserves_opaque_pixels_and_fills_white memHost blackCanvas ⟨400, 100⟩
      (by decide)).1 299 199 (by decide) (by decide)).2.2.2.1 (by decide),
   (resize_preserves_opaque_pixels_and_fills_white memHost blackCanvas ⟨400, 100⟩
      (by decide)).2.1 300 0 (by decide) (by decide) (by decide)⟩

/-- C5 as stated fails for a pixel that is not opaque: with a 100×100 widget,
opening the 300×300 image of half-transparent red installs it as decoded
(pixel (0, 0) is 0x80ff0000); the resize to 400×400 grows the buffer and paints
the old one onto white, leaving the opaque 0xffff7f7f at (0, 0). -/
theorem resize_preserves_pixels_counterexample :
    (run memHost (ScribbleArea.init ⟨640, 480⟩, glassFile) glassOps).1.image.size = ⟨300, 300⟩ ∧
    (run memHost (ScribbleArea.init ⟨640, 480⟩, glassFile) glassOps).1.image.pixel 0 0 =
      0x80ff0000 ∧
    (400 > (run memHost (ScribbleArea.init ⟨640, 480⟩, glassFile) glassOps).1.image.width) ∧
    ((run memHost (ScribbleArea.init ⟨640, 480⟩, glassFile) glassOps).1.resize memHost
      ⟨400, 400⟩).image.size = ⟨528, 528⟩ ∧
    ((run memHost (ScribbleArea.init ⟨640, 480⟩, glassFile) glassOps).1.resize memHost
      ⟨400, 400⟩).image.pixel 0 0 = 0xffff7f7f ∧
    ((run memHost (ScribbleArea.init ⟨640, 480⟩, glassFile) glassOps).1.resize memHost
      ⟨400, 400⟩).image.pixel 0 0 ≠
      (run memHost (ScribbleArea.init ⟨640, 480⟩, glassFile) glassOps).1.image.pixel 0 0 := by
  decide

/-- C6: a resize event whose new widget size is within the buffer bounds
changes nothing but the widget size: buffer dimensions, every pixel, the
modified flag, the pen colour and width, the drawing flag and the anchor stay
as they were. -/
theorem resize_within_bounds_is_frame (host : Host Files) (s : ScribbleArea) (newSize : QSize)
    (hw : newSize.width ≤ s.image.width) (hh : newSize.height ≤ s.image.height) :
    s.resize host newSize = { s with size := newSize } ∧
    (s.resize host newSize).image = s.image ∧
    (s.resize host newSize).image.width = s.image.width ∧
    (s.resize host newSize).image.height = s.image.height ∧
    (∀ x y, (s.resize host newSize).image.pixel x y = s.image.pixel x y) ∧
    (s.resize host newSize).modified = s.modified ∧
    (s.resize host newSize).myPenColor = s.myPenColor ∧
    (s.resize host newSize).myPenWidth = s.myPenWidth ∧
    (s.resize host newSize).scribbling = s.scribbling ∧
    (s.resize host newSize).lastPoint = s.lastPoint := by
  have hr : s.resize host newSize = { s with size := newSize } :=
    ScribbleArea.resizeEvent_within host { s with size := newSize } hw hh
  rw [hr]
  exact ⟨rfl, rfl, rfl, rfl, fun _ _ => rfl, rfl, rfl, rfl, rfl, rfl⟩

/-- C6 at a concrete input: the black 300×200 buffer is untouched by a resize
to 300×150. -/
theorem resize_within_bounds_is_frame_witness :
    blackCanvas.resize memHost ⟨300, 150⟩ = { blackCanvas with size := ⟨300, 150⟩ } :=
  (resize_within_bounds_is_frame memHost blackCanvas ⟨300, 150⟩ (by decide) (by decide)).1

/-! ## Saving and loading -/

/-- What a saveImage that returns true did: the visible image was not null, the
writer accepted it, and only the modified flag of the canvas changed. -/
theorem ScribbleArea.saveImage_true (host : Host Files) (fs : Files) (s : ScribbleArea)
    (fileName fileFormat : String) (h : (s.saveImage host fs fileName fileFormat).1 = true) :
    (ScribbleArea.resizeImage host s.image s.size).isNull = false ∧
    (host.write fs (ScribbleArea.resizeImage host s.image s.size) fileName fileFormat).1 = true ∧
    (s.saveImage host fs fileName fileFormat).2.1 = { s with modified := false } ∧
    (s.saveImage host fs fileName fileFormat).2.2 =
      (host.write fs (ScribbleArea.resizeImage host s.image s.size) fileName fileFormat).2 := by
  by_cases hn : (ScribbleArea.resizeImage host s.image s.size).isNull = true
  · simp [ScribbleArea.saveImage, QImage.save, hn] at h
  · have hn2 : (ScribbleArea.resizeImage host s.image s.size).isNull = false := by simpa using hn
    by_cases hwr : (host.write fs (ScribbleArea.resizeImage host s.image s.size)
        fileName fileFormat).1 = true
    · refine ⟨hn2, hwr, ?_, ?_⟩ <;> simp [ScribbleArea.saveImage, QImage.save, hn2, hwr]
    · simp [ScribbleArea.saveImage, QImage.save, hn2, hwr] at h

/-- A saveImage that returns false returns the canvas it was given. -/
theorem ScribbleArea.saveImage_false (host : Host Files) (fs : Files) (s : ScribbleArea)
    (fileName fileFormat : String) (h : (s.saveImage host fs fileName fileFormat).1 = false) :
    (s.saveImage host fs fileName fileFormat).2.1 = s := by
  unfold ScribbleArea.saveImage at h ⊢
  by_cases hl : (QImage.save host fs (ScribbleArea.resizeImage host s.image s.size)
      fileName fileFormat).1 = true
  · simp [hl] at h
  · simp [hl]

/-- The visible image, when it is not null, has the widget size.  It is the
buffer itself when the buffer has the widget size; otherwise it is the buffer
painted onto white, cropped or expanded to the widget size. -/
theorem ScribbleArea.visibleImage_spec (host : Host Files) (s : ScribbleArea)
    (hn : (ScribbleArea.resizeImage host s.image s.size).isNull = false) :
    (ScribbleArea.resizeImage host s.image s.size).width = s.size.width ∧
    (ScribbleArea.resizeImage host s.image s.size).height = s.size.height ∧
    ∀ x y, x < s.size.width → y < s.size.height →
      (ScribbleArea.resizeImage host s.image s.size).pixel x y =
        if x < s.image.width ∧ y < s.image.height then
          (if s.image.size = s.size then s.image.pixel x y
           else QImage.over host (s.image.pixel x y) (qRgb 255 255 255))
        else qRgb 255 255 255 := by
  by_cases he : s.image.size = s.size
  · have hr : ScribbleArea.resizeImage host s.image s.size = s.image := by
      simp [ScribbleArea.resizeImage, he]
    have hw : s.image.width = s.size.width := congrArg QSize.width he
    have hh : s.image.height = s.size.height := congrArg QSize.height he
    rw [hr]
    refine ⟨hw, hh, ?_⟩
    intro x y hx hy
    have hx2 : x < s.image.width := by omega
    have hy2 : y < s.image.height := by omega
    simp [hx2, hy2, he]
  · by_cases hpos : 0 < s.size.width ∧ 0 < s.size.height
    · rw [ScribbleArea.resizeImage_realloc host s.image s.size he hpos.1 hpos.2]
      refine ⟨rfl, rfl, ?_⟩
      intro x y _ _
      simp only [he, if_false]
    · have hz : s.size.width = 0 ∨ s.size.height = 0 := by omega
      have hnull : (ScribbleArea.resizeImage host s.image s.size).isNull = true := by
        simp [ScribbleArea.resizeImage, he, QImage.create, hz, QImage.fill, QImage.drawImage,
          QImage.isNull, QImage.null]
      rw [hnull] at hn
      exact absurd hn (by decide)

/-- Opening a file whose image has exactly the (non-zero) widget size installs
that image as the buffer. -/
theorem ScribbleArea.openImage_same_size (host : Host Files) (fs : Files) (s : ScribbleArea)
    (fileName : String) (hw : (host.read fs fileName).width = s.size.width)
    (hh : (host.read fs fileName).height = s.size.height)
    (hpw : 0 < s.size.width) (hph : 0 < s.size.height) :
    s.openImage host fs fileName =
      (true, { s with image := host.read fs fileName, modified := false }) := by
  have hn : (host.read fs fileName).isNull = false :=
    QImage.isNull_eq_false (by omega) (by omega)
  have hsz : (host.read fs fileName).size.expandedTo s.size = (host.read fs fileName).size := by
    simp [QSize.expandedTo, QImage.size, hw, hh]
  simp [ScribbleArea.openImage, QImage.load, hn, hsz, ScribbleArea.resizeImage]

/-- The in-memory host is lossless. -/
theorem memHost_lossless : Lossless memHost := by
  intro fs img fileName fileFormat h
  by_cases he : fileName = ""
  · simp [memHost, he] at h
  · simp [memHost, he, MemFiles.find]

/-- C7 (as amended): with a lossless codec and the widget size unchanged, when
saveImage returns true the following openImage of the same path returns true
and the buffer then has exactly the widget width and height.  Each of its
pixels is white where the coordinate lay outside the pre-save buffer.  Where
it lay inside, the pixel equals the pre-save pixel if that pixel was opaque or
the pre-save buffer had exactly the widget size, and otherwise it is the
pre-save pixel composed source-over onto white. -/
theorem save_then_open_roundtrip_flattened (host : Host Files) (hl : Lossless host) (fs : Files)
    (s : ScribbleArea) (fileName fileFormat : String)
    (hs : (s.saveImage host fs fileName fileFormat).1 = true) :
    ((s.saveImage host fs fileName fileFormat).2.1.openImage host
      (s.saveImage host fs fileName fileFormat).2.2 fileName).1 = true ∧
    ((s.saveImage host fs fileName fileFormat).2.1.openImage host
      (s.saveImage host fs fileName fileFormat).2.2 fileName).2.size = s.size ∧
    ((s.saveImage host fs fileName fileFormat).2.1.openImage host
      (s.saveImage host fs fileName fileFormat).2.2 fileName).2.image.width = s.size.width ∧
    ((s.saveImage host fs fileName fileFormat).2.1.openImage host
      (s.saveImage host fs fileName fileFormat).2.2 fileName).2.image.height = s.size.height ∧
    ∀ x y, x < s.size.width → y < s.size.height →
      (¬ (x < s.image.width ∧ y < s.image.height) →
        ((s.saveImage host fs fileName fileFormat).2.1.openImage host
      (s.saveImage host fs fileName fileFormat).2.2 fileName).2.image.pixel x y = qRgb 255 255 255) ∧
      (x < s.image.width → y < s.image.height → s.image.size = s.size →
        ((s.saveImage host fs fileName fileFormat).2.1.openImage host
      (s.saveImage host fs fileName fileFormat).2.2 fileName).2.image.pixel x y = s.image.pixel x y) ∧
      (x < s.image.width → y < s.image.height → qAlpha (s.image.pixel x y) = 255 →
        ((s.saveImage host fs fileName fileFormat).2.1.openImage host
      (s.saveImage host fs fileName fileFormat).2.2 fileName).2.image.pixel x y = s.image.pixel x y) ∧
      (x < s.image.width → y < s.image.height → s.image.size ≠ s.size →
        ((s.saveImage host fs fileName fileFormat).2.1.openImage host
      (s.saveImage host fs fileName fileFormat).2.2 fileName).2.image.pixel x y = QImage.over host (s.image.pixel x y) (qRgb 255 255 255)) := by
  obtain ⟨hn, hwr, hcanvas, hfiles⟩ := ScribbleArea.saveImage_true host fs s fileName fileFormat hs
  obtain ⟨hvw, hvh, hvp⟩ := ScribbleArea.visibleImage_spec host s hn
  obtain ⟨hpw, hph⟩ := QImage.pos_of_isNull_eq_false hn
  obtain ⟨hlw, hlh, hlp⟩ :=
    hl fs (ScribbleArea.resizeImage host s.image s.size) fileName fileFormat hwr
  rw [hcanvas, hfiles]
  have ho := ScribbleArea.openImage_same_size host
    (host.write fs (ScribbleArea.resizeImage host s.image s.size) fileName fileFormat).2
    { s with modified := false } fileName (hlw.trans hvw) (hlh.trans hvh)
    (by rw [← hvw]; exact hpw) (by rw [← hvh]; exact hph)
  rw [ho]
  refine ⟨rfl, rfl, hlw.trans hvw, hlh.trans hvh, ?_⟩
  intro x y hx hy
  have h1 := hlp x y (by rw [hvw]; exact hx) (by rw [hvh]; exact hy)
  have h2 := hvp x y hx hy
  have h3 := h1.trans h2
  refine ⟨?_, ?_, ?_, ?_⟩
  · intro hout
    rw [h3]
    simp only [hout, if_false]
  · intro hx2 hy2 he
    rw [h3]
    simp [hx2, hy2, he]
  · intro hx2 hy2 ha
    rw [h3]
    by_cases he : s.image.size = s.size
    · simp [hx2, hy2, he]
    · simp [hx2, hy2, he, QImage.over, ha]
  · intro hx2 hy2 he
    rw [h3]
    simp [hx2, hy2, he]

/-- C7 (as amended) at a concrete input: on the in-memory host, the black
300×200 canvas resized to a 400×100 widget is saved to "a.png" and reopened;
the buffer is then 400×100, black at (10, 10) and white at (350, 10). -/
theorem save_then_open_roundtrip_flattened_witness :
    (((blackCanvas.resize memHost ⟨400, 100⟩).saveImage memHost [] "a.png" "png").2.1.openImage memHost
      ((blackCanvas.resize memHost ⟨400, 100⟩).saveImage memHost [] "a.png" "png").2.2 "a.png").1 = true ∧
    (((blackCanvas.resize memHost ⟨400, 100⟩).saveImage memHost [] "a.png" "png").2.1.openImage memHost
      ((blackCanvas.resize memHost ⟨400, 100⟩).saveImage memHost [] "a.png" "png").2.2 "a.png").2.image.width = 400 ∧
    (((blackCanvas.resize memHost ⟨400, 100⟩).saveImage memHost [] "a.png" "png").2.1.openImage memHost
      ((blackCanvas.resize memHost ⟨400, 100⟩).saveImage memHost [] "a.png" "png").2.2 "a.png").2.image.pixel 350 10 = qRgb 255 255 255 ∧
    (((blackCanvas.resize memHost ⟨400, 100⟩).saveImage memHost [] "a.png" "png").2.1.openImage memHost
      ((blackCanvas.resize memHost ⟨400, 100⟩).saveImage memHost [] "a.png" "png").2.2 "a.png").2.image.pixel 10 10 = qRgb 0 0 0 :=
  ⟨(save_then_open_roundtrip_flattened memHost memHost_lossless []
      (blackCanvas.resize memHost ⟨400, 100⟩) "a.png" "png" (by decide)).1,
   (save_then_open_roundtrip_flattened memHost memHost_lossless []
      (blackCanvas.resize memHost ⟨400, 100⟩) "a.png" "png" (by decide)).2.2.1,
   ((save_then_open_roundtrip_flattened memHost memHost_lossless []
      (blackCanvas.resize memHost ⟨400, 100⟩) "a.png" "png" (by decide)).2.2.2.2
      350 10 (by decide) (by decide)).2.2.1 (by decide) (by decide) (by decide),
   ((save_then_open_roundtrip_flattened memHost memHost_lossless []
      (blackCanvas.resize memHost ⟨400, 100⟩) "a.png" "png" (by decide)).2.2.2.2
      10 10 (by decide) (by decide)).2.2.1 (by decide) (by decide) (by decide)⟩

/-- C7 as stated fails for a pixel that is not opaque in a buffer larger than
the widget: with a 100×100 widget showing the 300×300 half-transparent red
image, saveImage to "out.png" and openImage of it both return true, the
coordinate (0, 0) lay inside the pre-save buffer, where the pixel was
0x80ff0000, and the reopened buffer holds 0xffff7f7f there. -/
theorem save_then_open_roundtrip_counterexample :
    (run memHost (ScribbleArea.init ⟨640, 480⟩, glassFile) glassOps).1.size = ⟨100, 100⟩ ∧
    (run memHost (ScribbleArea.init ⟨640, 480⟩, glassFile) glassOps).1.image.size = ⟨300, 300⟩ ∧
    (run memHost (ScribbleArea.init ⟨640, 480⟩, glassFile) glassOps).1.image.pixel 0 0 =
      0x80ff0000 ∧
    ((run memHost (ScribbleArea.init ⟨640, 480⟩, glassFile) glassOps).1.saveImage memHost
      glassFile "out.png" "png").1 = true ∧
    (((run memHost (ScribbleArea.init ⟨640, 480⟩, glassFile) glassOps).1.saveImage memHost
      glassFile "out.png" "png").2.1.openImage memHost
      ((run memHost (ScribbleArea.init ⟨640, 480⟩, glassFile) glassOps).1.saveImage memHost
      glassFile "out.png" "png").2.2 "out.png").1 = true ∧
    (((run memHost (ScribbleArea.init ⟨640, 480⟩, glassFile) glassOps).1.saveImage memHost
      glassFile "out.png" "png").2.1.openImage memHost
      ((run memHost (ScribbleArea.init ⟨640, 480⟩, glassFile) glassOps).1.saveImage memHost
      glassFile "out.png" "png").2.2 "out.png").2.image.size = ⟨100, 100⟩ ∧
    (((run memHost (ScribbleArea.init ⟨640, 480⟩, glassFile) glassOps).1.saveImage memHost
      glassFile "out.png" "png").2.1.openImage memHost
      ((run memHost (ScribbleArea.init ⟨640, 480⟩, glassFile) glassOps).1.saveImage memHost
      glassFile "out.png" "png").2.2 "out.png").2.image.pixel 0 0 = 0xffff7f7f ∧
    (((run memHost (ScribbleArea.init ⟨640, 480⟩, glassFile) glassOps).1.saveImage memHost
      glassFile "out.png" "png").2.1.openImage memHost
      ((run memHost (ScribbleArea.init ⟨640, 480⟩, glassFile) glassOps).1.saveImage memHost
      glassFile "out.png" "png").2.2 "out.png").2.image.pixel 0 0 ≠
      (run memHost (ScribbleArea.init ⟨640, 480⟩, glassFile) glassOps).1.image.pixel 0 0 := by
  decide

/-! ## Closing the window -/

/-- C8: the close event is accepted exactly when maybeSave returns true, and it
leaves what maybeSave leaves.  On an unmodified canvas maybeSave returns true
without any dialog.  On a modified canvas: "cancel" vetoes the close and leaves
window and files unchanged; "discard" accepts it with no save dialog and no
saveImage call, window and files unchanged; "save" with an empty path from the
file dialog vetoes it, nothing changed and saveImage not called; "save" with a
non-empty path calls saveImage on that path with format "png" once, leaves the
canvas and the files that call leaves, and accepts the close exactly when the
call returned true, in which case the writer was run on the visible image and
succeeded, the files are the ones it produced and the modified flag is
cleared. -/
theorem close_gated_by_maybeSave (host : Host Files) (ui : Dialogs) (fs : Files)
    (w : MainWindow) :
    ((MainWindow.closeEvent host ui fs w).result = (MainWindow.maybeSave host ui fs w).result ∧
      (MainWindow.closeEvent host ui fs w).window = (MainWindow.maybeSave host ui fs w).window ∧
      (MainWindow.closeEvent host ui fs w).files = (MainWindow.maybeSave host ui fs w).files ∧
      (MainWindow.closeEvent host ui fs w).calls = (MainWindow.maybeSave host ui fs w).calls) ∧
    (w.scribbleArea.isModified = false →
      MainWindow.maybeSave host ui fs w = ⟨true, w, fs, []⟩) ∧
    (w.scribbleArea.isModified = true → ui.warning = StandardButton.Cancel →
      MainWindow.closeEvent host ui fs w = ⟨false, w, fs, [Call.warning]⟩) ∧
    (w.scribbleArea.isModified = true → ui.warning = StandardButton.Discard →
      MainWindow.closeEvent host ui fs w = ⟨true, w, fs, [Call.warning]⟩) ∧
    (w.scribbleArea.isModified = true → ui.warning = StandardButton.Save →
      (MainWindow.closeEvent host ui fs w).result =
        (MainWindow.saveFile host ui fs w "png").result ∧
      ((MainWindow.closeEvent host ui fs w).result = true ↔
        ui.getSaveFileName ≠ "" ∧
        (w.scribbleArea.saveImage host fs ui.getSaveFileName "png").1 = true)) ∧
    (w.scribbleArea.isModified = true → ui.warning = StandardButton.Save →
      ui.getSaveFileName = "" →
      MainWindow.closeEvent host ui fs w =
        ⟨false, w, fs, [Call.warning, Call.getSaveFileName]⟩) ∧
    (w.scribbleArea.isModified = true → ui.warning = StandardButton.Save →
      ui.getSaveFileName ≠ "" →
      MainWindow.closeEvent host ui fs w =
        ⟨(w.scribbleArea.saveImage host fs ui.getSaveFileName "png").1,
          ⟨(w.scribbleArea.saveImage host fs ui.getSaveFileName "png").2.1⟩,
          (w.scribbleArea.saveImage host fs ui.getSaveFileName "png").2.2,
          [Call.warning, Call.getSaveFileName, Call.saveImage ui.getSaveFileName "png"]⟩) ∧
    (w.scribbleArea.isModified = true → ui.warning = StandardButton.Save →
      (MainWindow.closeEvent host ui fs w).result = true →
      (host.write fs (ScribbleArea.resizeImage host w.scribbleArea.image w.scribbleArea.size)
        ui.getSaveFileName "png").1 = true ∧
      (MainWindow.closeEvent host ui fs w).files =
        (host.write fs (ScribbleArea.resizeImage host w.scribbleArea.image w.scribbleArea.size)
          ui.getSaveFileName "png").2 ∧
      (MainWindow.closeEvent host ui fs w).window.scribbleArea =
        { w.scribbleArea with modified := false } ∧
      (MainWindow.closeEvent host ui fs w).calls =
        [Call.warning, Call.getSaveFileName, Call.saveImage ui.getSaveFileName "png"]) := by
  have hclose : ∀ r : Outcome Files,
      (if r.result then { r with result := true } else { r with result := false }) = r := by
    intro r
    cases r with
    | mk result window files calls => cases result <;> rfl
  have hce : MainWindow.closeEvent host ui fs w = MainWindow.maybeSave host ui fs w := by
    unfold MainWindow.closeEvent
    exact hclose _
  rw [hce]
  refine ⟨⟨rfl, rfl, rfl, rfl⟩, ?_, ?_, ?_, ?_, ?_, ?_, ?_⟩
  · intro hm
    simp [MainWindow.maybeSave, hm]
  · intro hm hc
    simp [MainWindow.maybeSave, hm, hc]
  · intro hm hd
    simp [MainWindow.maybeSave, hm, hd]
  · intro hm hsv
    by_cases hp : ui.getSaveFileName = ""
    · simp [MainWindow.maybeSave, MainWindow.saveFile, hm, hsv, hp]
    · simp [MainWindow.maybeSave, MainWindow.saveFile, hm, hsv, hp]
  · intro hm hsv hp
    simp [MainWindow.maybeSave, MainWindow.saveFile, hm, hsv, hp]
  · intro hm hsv hp
    simp [MainWindow.maybeSave, MainWindow.saveFile, hm, hsv, hp]
  · intro hm hsv hr
    by_cases hp : ui.getSaveFileName = ""
    · simp [MainWindow.maybeSave, MainWindow.saveFile, hm, hsv, hp] at hr
    · have hsi : (w.scribbleArea.saveImage host fs ui.getSaveFileName "png").1 = true := by
        simpa [MainWindow.maybeSave, MainWindow.saveFile, hm, hsv, hp] using hr
      obtain ⟨_, hwr, hcanvas, hfiles⟩ :=
        ScribbleArea.saveImage_true host fs w.scribbleArea ui.getSaveFileName "png" hsi
      refine ⟨hwr, ?_, ?_, ?_⟩
      · simp only [MainWindow.maybeSave, MainWindow.saveFile, hm, hsv, hp, if_true, if_false]
        exact hfiles
      · simp only [MainWindow.maybeSave, MainWindow.saveFile, hm, hsv, hp, if_true, if_false]
        exact hcanvas
      · simp [MainWindow.maybeSave, MainWindow.saveFile, hm, hsv, hp]

/-- C8 at concrete inputs: on the modified black canvas, "cancel" vetoes the
close with nothing changed, and "save" with the path "a.png" on the in-memory
host accepts it, having written one file, "a.png", and cleared the flag. -/
theorem close_gated_by_maybeSave_witness :
    MainWindow.closeEvent memHost ⟨StandardButton.Cancel, "a.png"⟩ [] ⟨blackCanvas⟩ =
      ⟨false, ⟨blackCanvas⟩, [], [Call.warning]⟩ ∧
    (MainWindow.closeEvent memHost ⟨StandardButton.Save, "a.png"⟩ [] ⟨blackCanvas⟩).result =
      true ∧
    ((MainWindow.closeEvent memHost ⟨StandardButton.Save, "a.png"⟩ [] ⟨blackCanvas⟩).files.map
      Prod.fst = ["a.png"] ∧
    (MainWindow.closeEvent memHost ⟨StandardButton.Save, "a.png"⟩ []
      ⟨blackCanvas⟩).window.scribbleArea.modified = false ∧
    (MainWindow.closeEvent memHost ⟨StandardButton.Save, "a.png"⟩ [] ⟨blackCanvas⟩).calls =
      [Call.warning, Call.getSaveFileName, Call.saveImage "a.png" "png"]) :=
  ⟨(close_gated_by_maybeSave memHost ⟨StandardButton.Cancel, "a.png"⟩ [] ⟨blackCanvas⟩).2.2.1
      rfl rfl,
   ((close_gated_by_maybeSave memHost ⟨StandardButton.Save, "a.png"⟩ [] ⟨blackCanvas⟩).2.2.2.2.1
      rfl rfl).2.mpr ⟨by decide, by decide⟩,
   (congrArg (List.map Prod.fst)
      ((close_gated_by_maybeSave memHost ⟨StandardButton.Save, "a.png"⟩ []
        ⟨blackCanvas⟩).2.2.2.2.2.2.2 rfl rfl (by decide)).2.1).trans (by decide),
   (congrArg ScribbleArea.modified
      ((close_gated_by_maybeSave memHost ⟨StandardButton.Save, "a.png"⟩ []
        ⟨blackCanvas⟩).2.2.2.2.2.2.2 rfl rfl (by decide)).2.2.1).trans rfl,
   ((close_gated_by_maybeSave memHost ⟨StandardButton.Save, "a.png"⟩ []
      ⟨blackCanvas⟩).2.2.2.2.2.2.2 rfl rfl (by decide)).2.2.2⟩

/-! ## Failures -/

/-- C9: a failing operation returns false and leaves the canvas as it was.  An
openImage whose decode fails (the reader returns a null image) returns false
with the canvas unchanged, and so does every openImage that returns false; a
saveImage whose image.save fails returns false with the canvas unchanged, in
particular the modified flag; a saveFile whose dialog returns the empty path
returns false, leaves window and files unchanged and makes no saveImage call. -/
theorem failures_leave_canvas_unchanged (host : Host Files) (fs : Files) (s : ScribbleArea) :
    (∀ fileName, (host.read fs fileName).isNull = true →
      s.openImage host fs fileName = (false, s)) ∧
    (∀ fileName, (s.openImage host fs fileName).1 = false →
      (s.openImage host fs fileName).2 = s) ∧
    (∀ fileName fileFormat,
      (QImage.save host fs (ScribbleArea.resizeImage host s.image s.size) fileName fileFormat).1 =
        false →
      (s.saveImage host fs fileName fileFormat).1 = false ∧
      (s.saveImage host fs fileName fileFormat).2.1 = s ∧
      (s.saveImage host fs fileName fileFormat).2.1.modified = s.modified) ∧
    (∀ (ui : Dialogs) (w : MainWindow) (fileFormat : String), ui.getSaveFileName = "" →
      MainWindow.saveFile host ui fs w fileFormat = ⟨false, w, fs, [Call.getSaveFileName]⟩) := by
  refine ⟨?_, ?_, ?_, ?_⟩
  · intro fileName hn
    simp [ScribbleArea.openImage, QImage.load, hn]
  · intro fileName h
    exact ScribbleArea.openImage_false host fs s fileName h
  · intro fileName fileFormat h
    have h1 : (s.saveImage host fs fileName fileFormat).1 = false := by
      simp [ScribbleArea.saveImage, h]
    have h2 := ScribbleArea.saveImage_false host fs s fileName fileFormat h1
    exact ⟨h1, h2, by rw [h2]⟩
  · intro ui w fileFormat hp
    simp [MainWindow.saveFile, hp]

/-- C9 at concrete inputs: on the host whose codec always fails, openImage and
saveImage return false and leave the black canvas as it was; a dismissed file
dialog makes saveFile return false. -/
theorem failures_leave_canvas_unchanged_witness :
    blackCanvas.openImage failingHost [] "a.png" = (false, blackCanvas) ∧
    ((blackCanvas.saveImage failingHost [] "a.png" "png").1 = false ∧
      (blackCanvas.saveImage failingHost [] "a.png" "png").2.1 = blackCanvas ∧
      (blackCanvas.saveImage failingHost [] "a.png" "png").2.1.modified = true) ∧
    MainWindow.saveFile failingHost ⟨StandardButton.Save, ""⟩ [] ⟨blackCanvas⟩ "png" =
      ⟨false, ⟨blackCanvas⟩, [], [Call.getSaveFileName]⟩ :=
  ⟨(failures_leave_canvas_unchanged failingHost [] blackCanvas).1 "a.png" (by decide),
   (failures_leave_canvas_unchanged failingHost [] blackCanvas).2.2.1 "a.png" "png" (by decide),
   (failures_leave_canvas_unchanged failingHost [] blackCanvas).2.2.2
      ⟨StandardButton.Save, ""⟩ ⟨blackCanvas⟩ "png" rfl⟩

/-! ## The pointer state machine -/

/-- C10: while the drawing flag is false, a pointer-move and a pointer-up leave
the whole canvas (buffer, modified flag, anchor) unchanged.  A pointer-down
with the primary button stores the anchor and sets the drawing flag, and with
any other button changes nothing, so from Idle the state becomes Drawing
exactly for the primary button.  While the drawing flag is true, a move draws
the segment to its position when the primary button is held and changes nothing
otherwise, and a pointer-up clears the drawing flag exactly when its button is
the primary one (after drawing the final segment). -/
theorem pointer_state_machine (host : Host Files) (s : ScribbleArea) (e : QMouseEvent) :
    (s.scribbling = false →
      s.mouseMoveEvent host e = s ∧ s.mouseReleaseEvent host e = s) ∧
    (e.button = Qt.LeftButton →
      s.mousePressEvent e = { s with lastPoint := e.pos, scribbling := true }) ∧
    (e.button ≠ Qt.LeftButton → s.mousePressEvent e = s) ∧
    (s.scribbling = false →
      ((s.mousePressEvent e).scribbling = true ↔ e.button = Qt.LeftButton)) ∧
    (s.scribbling = true →
      (e.buttons &&& Qt.LeftButton ≠ 0 → s.mouseMoveEvent host e = s.drawLineTo host e.pos) ∧
      (e.buttons &&& Qt.LeftButton = 0 → s.mouseMoveEvent host e = s) ∧
      (s.mouseMoveEvent host e).scribbling = true ∧
      (e.button = Qt.LeftButton →
        s.mouseReleaseEvent host e = { s.drawLineTo host e.pos with scribbling := false }) ∧
      (e.button ≠ Qt.LeftButton → s.mouseReleaseEvent host e = s) ∧
      ((s.mouseReleaseEvent host e).scribbling = false ↔ e.button = Qt.LeftButton)) := by
  refine ⟨?_, ?_, ?_, ?_, ?_⟩
  · intro hs
    simp [ScribbleArea.mouseMoveEvent, ScribbleArea.mouseReleaseEvent, hs]
  · intro hb
    simp [ScribbleArea.mousePressEvent, hb]
  · intro hb
    simp [ScribbleArea.mousePressEvent, hb]
  · intro hs
    by_cases hb : e.button = Qt.LeftButton
    · simp [ScribbleArea.mousePressEvent, hb]
    · simp [ScribbleArea.mousePressEvent, hb, hs]
  · intro hs
    refine ⟨?_, ?_, ?_, ?_, ?_, ?_⟩
    · intro hb
      simp [ScribbleArea.mouseMoveEvent, hb, hs]
    · intro hb
      simp [ScribbleArea.mouseMoveEvent, hb]
    · by_cases hb : e.buttons &&& Qt.LeftButton = 0
      · simp [ScribbleArea.mouseMoveEvent, hb, hs]
      · simp [ScribbleArea.mouseMoveEvent, hb, hs, ScribbleArea.drawLineTo]
    · intro hb
      simp [ScribbleArea.mouseReleaseEvent, hb, hs]
    · intro hb
      simp [ScribbleArea.mouseReleaseEvent, hb]
    · by_cases hb : e.button = Qt.LeftButton
      · simp [ScribbleArea.mouseReleaseEvent, hb, hs]
      · simp [ScribbleArea.mouseReleaseEvent, hb, hs]

/-- C10 at concrete inputs: on the idle black canvas a move with the primary
button held and a primary release change nothing, and a primary press at
(10, 10) starts drawing. -/
theorem pointer_state_machine_witness :
    (blackCanvas.mouseMoveEvent memHost ⟨0, Qt.LeftButton, ⟨20, 20⟩⟩ = blackCanvas ∧
      blackCanvas.mouseReleaseEvent memHost ⟨0, Qt.LeftButton, ⟨20, 20⟩⟩ = blackCanvas) ∧
    blackCanvas.mousePressEvent ⟨Qt.LeftButton, Qt.LeftButton, ⟨10, 10⟩⟩ =
      { blackCanvas with lastPoint := ⟨10, 10⟩, scribbling := true } :=
  ⟨(pointer_state_machine memHost blackCanvas ⟨0, Qt.LeftButton, ⟨20, 20⟩⟩).1 rfl,
   (pointer_state_machine memHost blackCanvas ⟨Qt.LeftButton, Qt.LeftButton, ⟨10, 10⟩⟩).2.1 rfl⟩

end Scribble
